import Mathlib

/-!
Verification of the auto-post pipeline (`scripts/auto-post.js`).

We shallowly embed the pipeline's decision logic:
* `fetchNews` — per-source feed fetch: take 10, freshness filter (48h), take 5,
  map to candidates with a 300-character snippet cap;
* `fetchRecentPosts` — recent-history fetch absorbing failures as `[]`;
* `categoryCounts` / `leastUsedCategory` — the category-balance hint;
* `generatePost` — news-context guard, brace-span extraction, parse;
* `publishPost` / `runMain` — record construction and the run's sequencing.

External effects are modelled as explicit inputs: the rss fetch result is an
`Except` (an exception thrown by the parser becomes `Except.error`), the HTTP
response of the history query and of the store insert are plain data, the
model's textual reply is a `String` input, and `JSON.parse` / `new Date`
are oracle parameters (`parse : String → Option Article`,
`parseDate : String → Option Int`, where `none` models `NaN` / a thrown
parse error).
-/

/-- One item of a parsed RSS feed, as `rss-parser` exposes it: every field may
be absent. An empty string is falsy in JavaScript, which matters for the
`!item.pubDate` check and the `||` defaults. -/
structure FeedItem where
  title : Option String
  link : Option String
  pubDate : Option String
  contentSnippet : Option String
  content : Option String
deriving Repr, DecidableEq

/-- A news candidate produced by `fetchNews` (all fields defaulted to `''`). -/
structure NewsCandidate where
  title : String
  link : String
  pubDate : String
  snippet : String
deriving Repr, DecidableEq

/-- Result of one source: `{ category, articles }`. -/
structure SourceResult where
  category : String
  articles : List NewsCandidate
deriving Repr, DecidableEq

/-- A recent-posts row as projected by the history query
(`select=title,category,date`). -/
structure RecentPost where
  title : String
  category : String
  date : String
deriving Repr, DecidableEq

/-- The parsed generation payload (the four JSON fields the prompt demands). -/
structure Article where
  category : String
  title : String
  excerpt : String
  body : String
deriving Repr, DecidableEq

/-- The row sent to (and echoed by) the content store. -/
structure Post where
  title : String
  category : String
  date : String
  status : String
  excerpt : String
  image : String
  body : String
deriving Repr, DecidableEq

/-- JavaScript `a || b` for an optional string `a`: `undefined` and `''` are
falsy, so they fall through to the default. -/
def jsOrStr : Option String → String → String
  | none, d => d
  | some s, d => if s = "" then d else s

/-- JavaScript `s.slice(0, n)`: the first `n` characters of `s`. -/
def sliceJs (n : Nat) (s : String) : String := String.mk (s.toList.take n)

/-- JavaScript `s.trim()`: strip whitespace from both ends. -/
def trimJs (s : String) : String :=
  String.mk ((s.toList.dropWhile Char.isWhitespace).reverse.dropWhile Char.isWhitespace).reverse

/-- The 48-hour freshness window, in milliseconds (`48 * 60 * 60 * 1000`). -/
def FRESHNESS_MS : Int := 48 * 60 * 60 * 1000

/-- The freshness filter of `fetchNews`:
`if (!item.pubDate) return true; return now - new Date(item.pubDate).getTime() < FRESHNESS_MS;`.
A missing or empty `pubDate` is falsy, hence retained.  `parseDate` models
`new Date(s).getTime()`; `none` models `NaN`, and any comparison against
`NaN` is false, so an unparseable date is dropped. -/
def freshFilter (parseDate : String → Option Int) (now : Int) (item : FeedItem) : Bool :=
  match item.pubDate with
  | none => true
  | some s =>
    if s = "" then true
    else
      match parseDate s with
      | none => false
      | some t => now - t < FRESHNESS_MS

/-- Map one surviving feed item to a `NewsCandidate`:
`title: item.title || ''`, `link: item.link || ''`, `pubDate: item.pubDate || ''`,
`snippet: (item.contentSnippet || item.content || '').slice(0, 300)`. -/
def toCandidate (item : FeedItem) : NewsCandidate :=
  { title := jsOrStr item.title ""
  , link := jsOrStr item.link ""
  , pubDate := jsOrStr item.pubDate ""
  , snippet := sliceJs 300 (jsOrStr item.contentSnippet (jsOrStr item.content "")) }

/-- Model of `fetchNews`: the whole body is wrapped in `try/catch`, so a fetch or parse
failure (the `Except.error` case) yields `{ category, articles: [] }`.  On
success: `feed.items.slice(0, 10).filter(freshness).slice(0, 5).map(toCandidate)`. -/
def fetchNews (parseDate : String → Option Int) (now : Int)
    (category : String) (feedResult : Except String (List FeedItem)) : SourceResult :=
  match feedResult with
  | Except.error _ => { category := category, articles := [] }
  | Except.ok items =>
      { category := category
      , articles := (((items.take 10).filter (freshFilter parseDate now)).take 5).map toCandidate }

/-- Outcome of the recent-posts HTTP query: either the `fetch` call threw
(network error) or it returned a response with a status code and a body. -/
inductive RecentFetchOutcome where
  | networkError (msg : String)
  | response (status : Nat) (posts : List RecentPost)
deriving Repr, DecidableEq

/-- Model of `fetchRecentPosts`: a thrown error is caught and absorbed as `[]`; a
non-2xx response (`!res.ok`) is logged and absorbed as `[]`; otherwise the
parsed rows are returned.  Total by construction: it never raises. -/
def fetchRecentPosts : RecentFetchOutcome → List RecentPost
  | RecentFetchOutcome.networkError _ => []
  | RecentFetchOutcome.response status posts =>
      if 200 ≤ status ∧ status < 300 then posts else []

/-- The `CategoryBalanceCounts` object: the object literal `{ AI: 0, 雲端: 0, 資安: 0 }`
has exactly these three own keys, in this insertion order. -/
structure CategoryCounts where
  ai : Nat
  cloud : Nat
  sec : Nat
deriving Repr, DecidableEq

/-- One step of the `forEach` loop:
`if (categoryCounts[p.category] !== undefined) categoryCounts[p.category]++` —
the lookup is defined exactly for the three literal keys. -/
def countStep (c : CategoryCounts) (p : RecentPost) : CategoryCounts :=
  if p.category = "AI" then { c with ai := c.ai + 1 }
  else if p.category = "雲端" then { c with cloud := c.cloud + 1 }
  else if p.category = "資安" then { c with sec := c.sec + 1 }
  else c

/-- The counts accumulated over the recent posts (a left fold, as `forEach`). -/
def categoryCounts (recentPosts : List RecentPost) : CategoryCounts :=
  recentPosts.foldl countStep { ai := 0, cloud := 0, sec := 0 }

/-- The list `Object.entries(categoryCounts)` in insertion order. -/
def categoryEntries (c : CategoryCounts) : List (String × Nat) :=
  [("AI", c.ai), ("雲端", c.cloud), ("資安", c.sec)]

/-- Stable insertion of an entry into a list sorted ascending by count: the
inserted element (which came earlier in the original order) goes before any
strictly larger element and after equal ones — the observable contract of
`Array.prototype.sort` with comparator `(a, b) => a[1] - b[1]` (ES2019+
requires sort stability). -/
def insertByCount (x : String × Nat) : List (String × Nat) → List (String × Nat)
  | [] => [x]
  | y :: ys => if x.2 ≤ y.2 then x :: y :: ys else y :: insertByCount x ys

/-- Stable ascending sort by count (insertion sort). -/
def sortByCount : List (String × Nat) → List (String × Nat)
  | [] => []
  | x :: xs => insertByCount x (sortByCount xs)

/-- The selection `Object.entries(categoryCounts).sort((a, b) => a[1] - b[1])[0][0]`. -/
def leastUsedCategory (c : CategoryCounts) : String :=
  ((sortByCount (categoryEntries c)).headD ("AI", 0)).1

/-- Modelled from the spec's words, for comparison with `leastUsedCategory`:
"select the category with the smallest count, ties broken by enum declaration
order {AI, Cloud, Security}" — the first category in declaration order whose
count equals the minimum. -/
def leastUsedSpec (c : CategoryCounts) : String :=
  let m := Nat.min (Nat.min c.ai c.cloud) c.sec
  if c.ai = m then "AI" else if c.cloud = m then "雲端" else "資安"

/-- One labeled news block of the prompt:
`【category】` followed by the numbered candidates, a snippet line appended
when the snippet is truthy (non-empty). -/
def newsBlock (n : SourceResult) : String :=
  "【" ++ n.category ++ "】\n" ++
    String.intercalate "\n"
      (n.articles.enum.map (fun e =>
        "  " ++ toString (e.1 + 1) ++ ". " ++ e.2.title ++
          (if e.2.snippet = "" then "" else "\n     " ++ e.2.snippet)))

/-- The combined news context:
`newsData.filter(n => n.articles.length > 0).map(block).join('\n\n')`.
It is the empty string exactly when every source yielded zero candidates. -/
def newsContext (newsData : List SourceResult) : String :=
  String.intercalate "\n\n"
    ((newsData.filter (fun n => n.articles.length > 0)).map newsBlock)

/-- The dedup / category-balance context appended to the prompt when recent
posts exist (`if (recentPosts.length > 0)`). -/
def dedupContext (recentPosts : List RecentPost) : String :=
  if recentPosts.length > 0 then
    let recentTitles := String.intercalate "\n"
      (recentPosts.map (fun p => "- [" ++ p.category ++ "] " ++ p.title ++ " (" ++ p.date ++ ")"))
    "\n\n⚠️ 以下是近期已發布的文章，請務必選擇不同的主題和角度，不要與這些文章重複或相似：\n"
      ++ recentTitles
      ++ "\n\n💡 近期「" ++ leastUsedCategory (categoryCounts recentPosts)
      ++ "」類別的文章較少，優先考慮此類別（但若該類別新聞確實不夠有話題性，可選其他類別）。"
  else ""

/-- The greedy brace-span match `raw.match(/\x7b[\s\S]*\x7d/)`: the substring
running from the first `{` of the text to the last `}`, provided that last `}`
comes after the first `{`; `none` when no such span exists. -/
def braceSpan (cs : List Char) : Option (List Char) :=
  let fromBrace := cs.dropWhile (fun c => c != '{')
  let span := (fromBrace.reverse.dropWhile (fun c => c != '}')).reverse
  if span.isEmpty then none else some span

/-- The ways `generatePost` can throw: the all-sources-empty guard, the
missing-brace-span error (carrying `raw.slice(0, 300)` as diagnostic
preview), and a `JSON.parse` failure on the extracted span. -/
inductive GenError where
  | noNews
  | formatError (preview : String)
  | parseError
deriving Repr, DecidableEq

/-- The one prompt sent to the model (`todayText` is
`new Date().toLocaleDateString('zh-TW', ...)`). -/
def promptText (todayText : String) (newsData : List SourceResult)
    (recentPosts : List RecentPost) : String :=
  "你是一位專業的科技部落格作者，專注於 AI、雲端運算、資訊安全領域。今天（"
    ++ todayText ++ "）的最新科技新聞如下：\n\n"
    ++ newsContext newsData ++ "\n" ++ dedupContext recentPosts
    ++ "\n\n請從以上新聞中，選出一則符合以下條件的新聞來撰寫文章：\n"
    ++ "1. 與已發布文章的主題、概念、角度都不重複、不相似\n"
    ++ "2. 時效性強，最好是近一兩天內的新聞\n"
    ++ "3. 對台灣讀者具有參考價值\n\n"
    ++ "撰寫一篇專業繁體中文部落格文章。\n\n"
    ++ "**請以純 JSON 格式回傳（不要包含其他文字或 Markdown 代碼區塊）：**\n"
    ++ "\x7b\n"
    ++ "  \"category\": \"AI\" 或 \"雲端\" 或 \"資安\",\n"
    ++ "  \"title\": \"吸引人的文章標題（25字以內）\",\n"
    ++ "  \"excerpt\": \"文章摘要，說明本文重點（80-120字）\",\n"
    ++ "  \"body\": \"文章正文（HTML格式）\"\n"
    ++ "\x7d\n\n"
    ++ "**body 格式要求：**\n"
    ++ "- 使用 <h2>、<p>、<ul>/<li> 等 HTML 標籤\n"
    ++ "- 600-900 字\n"
    ++ "- 結構：新聞背景 → 技術深度分析 → 對台灣/亞太地區的影響 → 結論與建議\n"
    ++ "- 語氣：專業但易讀，避免過度術語"

/-- Model of `generatePost`, with the model call made explicit: `rawResponse` is the
text the model would answer and `parse` models `JSON.parse` (`none` = a
thrown `SyntaxError`).  Returns the outcome together with the generation
request that was issued (`none` when no request was sent) — the
`newsContext` guard throws *before* `anthropic.messages.create` is called.
The raw text is trimmed before matching
(`response.content[0].text.trim()`). -/
def generatePost (parse : String → Option Article) (todayText : String)
    (newsData : List SourceResult) (recentPosts : List RecentPost)
    (rawResponse : String) : Except GenError Article × Option String :=
  if newsContext newsData = "" then (Except.error GenError.noNews, none)
  else
    let prompt := promptText todayText newsData recentPosts
    let raw := trimJs rawResponse
    match braceSpan raw.toList with
    | none => (Except.error (GenError.formatError (sliceJs 300 raw)), some prompt)
    | some span =>
        match parse (String.mk span) with
        | some a => (Except.ok a, some prompt)
        | none => (Except.error GenError.parseError, some prompt)

/-- The store's reply to the insert: `ok` is `res.ok`, `status` the HTTP
status, `errText` the body text read on failure, `data` the parsed rows
returned under `Prefer: return=representation`. -/
structure StoreResponse where
  ok : Bool
  status : Nat
  errText : String
  data : List Post
deriving Repr, DecidableEq

/-- The record `publishPost` builds from the generated article: `date` is the
run-time calendar date (`new Date().toISOString().split('T')[0]`, the `today`
parameter), `status` is `'published'`, `image` is `''`, and category, title,
excerpt and body are copied verbatim. -/
def buildPost (today : String) (article : Article) : Post :=
  { title := article.title
  , category := article.category
  , date := today
  , status := "published"
  , excerpt := article.excerpt
  , image := ""
  , body := article.body }

/-- Model of `publishPost`: returns the record sent in the single insert together with
the outcome — a thrown `PublishError` carrying the status and body on
`!res.ok`, otherwise `data[0]` (JS `undefined` when the echo is empty). -/
def publishPost (today : String) (article : Article) (resp : StoreResponse) :
    Post × Except String (Option Post) :=
  ( buildPost today article
  , if resp.ok then Except.ok resp.data.head?
    else Except.error ("Supabase 寫入失敗 (HTTP " ++ toString resp.status ++ "): " ++ resp.errText) )

/-- Observable outcome of one run of `main`: the process exit code, whether a
generation request was sent, the records sent to the content store (in
order), and the row reported as published. -/
structure RunOutcome where
  exitCode : Nat
  generationRequested : Bool
  inserts : List Post
  published : Option Post
deriving Repr, DecidableEq

/-- Model of `main`: fetch all sources and the recent history (each failure absorbed
locally), then `generatePost`, then `publishPost`; any uncaught error reaches
`main().catch` which prints and calls `process.exit(1)`. -/
def runMain (parseDate : String → Option Int) (parse : String → Option Article)
    (now : Int) (todayText : String) (today : String)
    (feedInputs : List (String × Except String (List FeedItem)))
    (recentInput : RecentFetchOutcome)
    (rawResponse : String) (storeResp : StoreResponse) : RunOutcome :=
  let newsData := feedInputs.map (fun s => fetchNews parseDate now s.1 s.2)
  let recentPosts := fetchRecentPosts recentInput
  match generatePost parse todayText newsData recentPosts rawResponse with
  | (Except.error _, req) =>
      { exitCode := 1, generationRequested := req.isSome, inserts := [], published := none }
  | (Except.ok article, req) =>
      match publishPost today article storeResp with
      | (post, Except.error _) =>
          { exitCode := 1, generationRequested := req.isSome, inserts := [post], published := none }
      | (post, Except.ok returned) =>
          { exitCode := 0, generationRequested := req.isSome, inserts := [post], published := returned }

/-! ### Helper lemmas -/

theorem dropWhile_ne_of_not_mem (ch : Char) (p r : List Char) (hp : ch ∉ p) :
    (p ++ ch :: r).dropWhile (fun c => c != ch) = ch :: r := by
  induction p with
  | nil => simp [List.dropWhile_cons]
  | cons a as ih =>
      have ha : a ≠ ch := by
        intro h
        exact hp (by simp [h])
      have has : ch ∉ as := fun h => hp (List.mem_cons_of_mem _ h)
      simp [List.dropWhile_cons, ha, ih has]

theorem dropWhile_ne_eq_nil (ch : Char) (l : List Char) (h : ch ∉ l) :
    l.dropWhile (fun c => c != ch) = [] := by
  induction l with
  | nil => rfl
  | cons a as ih =>
      have ha : a ≠ ch := by
        intro hc
        exact h (by simp [hc])
      have has : ch ∉ as := fun hc => h (List.mem_cons_of_mem _ hc)
      simp [List.dropWhile_cons, ha, ih has]

theorem first_occurrence_split (ch : Char) (l : List Char) (h : ch ∈ l) :
    ∃ p r, l = p ++ ch :: r ∧ ch ∉ p := by
  induction l with
  | nil => cases h
  | cons a as ih =>
      by_cases hc : a = ch
      · exact ⟨[], as, by simp [hc], by simp⟩
      · have : ch ∈ as := by
          rcases List.mem_cons.mp h with h1 | h1
          · exact absurd h1.symm hc
          · exact h1
        obtain ⟨p, r, hpr, hnp⟩ := ih this
        refine ⟨a :: p, r, by simp [hpr], ?_⟩
        intro hmem
        rcases List.mem_cons.mp hmem with h1 | h1
        · exact hc h1.symm
        · exact hnp h1

theorem braceSpan_decomp (p m q : List Char) (hp : '{' ∉ p) (hq : '}' ∉ q) :
    braceSpan (p ++ '{' :: (m ++ '}' :: q)) = some ('{' :: (m ++ ['}'])) := by
  simp only [braceSpan]
  rw [dropWhile_ne_of_not_mem '{' p _ hp]
  have h1 : ('{' :: (m ++ '}' :: q)).reverse = q.reverse ++ '}' :: (m.reverse ++ ['{']) := by
    simp
  rw [h1, dropWhile_ne_of_not_mem '}' q.reverse _ (by simpa using hq)]
  simp

theorem braceSpan_none (cs : List Char)
    (hno : ¬ ∃ p m q, cs = p ++ '{' :: (m ++ '}' :: q)) :
    braceSpan cs = none := by
  by_cases hmem : '{' ∈ cs
  · obtain ⟨p, r, hpr, hnp⟩ := first_occurrence_split '{' cs hmem
    have hq : '}' ∉ r := by
      intro hr
      obtain ⟨m, q, hmq⟩ := List.append_of_mem hr
      exact hno ⟨p, m, q, by rw [hpr, hmq]⟩
    subst hpr
    simp only [braceSpan]
    rw [dropWhile_ne_of_not_mem '{' p _ hnp]
    have : '}' ∉ ('{' :: r).reverse := by
      simp
      simpa using hq
    rw [dropWhile_ne_eq_nil '}' _ this]
    simp
  · simp only [braceSpan]
    rw [dropWhile_ne_eq_nil '{' cs hmem]
    simp

theorem newsContext_all_empty (nd : List SourceResult) (h : ∀ x ∈ nd, x.articles = []) :
    newsContext nd = "" := by
  have hf : nd.filter (fun n => n.articles.length > 0) = [] := by
    rw [List.filter_eq_nil_iff]
    intro a ha
    simp [h a ha]
  simp [newsContext, hf]
  rfl

/-! ### Claim theorems -/

/-- C1: if every feed source yields zero candidates after freshness filtering,
the run terminates with the `NoNewsAvailable` condition (exit code 1), no
generation request is sent, and no content-store write is issued. -/
theorem noNewsAvailable_aborts_before_generation
    (parseDate : String → Option Int) (parse : String → Option Article)
    (now : Int) (todayText today : String)
    (feedInputs : List (String × Except String (List FeedItem)))
    (recentInput : RecentFetchOutcome) (rawResponse : String) (storeResp : StoreResponse)
    (h : ∀ s ∈ feedInputs, (fetchNews parseDate now s.1 s.2).articles = []) :
    runMain parseDate parse now todayText today feedInputs recentInput rawResponse storeResp =
      { exitCode := 1, generationRequested := false, inserts := [], published := none } := by
  have hctx : newsContext (feedInputs.map (fun s => fetchNews parseDate now s.1 s.2)) = "" := by
    apply newsContext_all_empty
    intro x hx
    obtain ⟨s, hs, rfl⟩ := List.mem_map.mp hx
    exact h s hs
  simp [runMain, generatePost, hctx]

/-- C1 witness: one source errors, one parses to an empty feed, one has a
single item that is dropped by the freshness filter; the run aborts with
exit 1, no generation request and no store write. -/
theorem noNewsAvailable_aborts_before_generation_witness :
    runMain (fun s => if s = "Mon, 01 Jan 2020" then some 0 else none) (fun _ => none)
      1000000000000 "2026年10月11日" "2026-10-11"
      [("AI", Except.error "network"), ("雲端", Except.ok []),
       ("資安", Except.ok [{ title := some "t", link := none,
                             pubDate := some "Mon, 01 Jan 2020",
                             contentSnippet := none, content := none }])]
      (RecentFetchOutcome.response 200 []) "ignored"
      { ok := true, status := 201, errText := "", data := [] } =
      { exitCode := 1, generationRequested := false, inserts := [], published := none } :=
  noNewsAvailable_aborts_before_generation _ _ _ _ _ _ _ _ _ (by decide)

/-- C3: within the first 10 items of a source, an item whose `pubDate` parses
to a timestamp older than 48 hours is excluded by the freshness filter, and an
item with no `pubDate` is always retained by it. -/
theorem freshness_filter_spec (parseDate : String → Option Int) (now : Int)
    (items : List FeedItem) (item : FeedItem) (hmem : item ∈ items.take 10) :
    (∀ s t, item.pubDate = some s → s ≠ "" → parseDate s = some t →
        FRESHNESS_MS < now - t →
        item ∉ (items.take 10).filter (freshFilter parseDate now))
    ∧ (item.pubDate = none → item ∈ (items.take 10).filter (freshFilter parseDate now)) := by
  constructor
  · intro s t hp hne hpd hold hmemf
    have hf := (List.mem_filter.mp hmemf).2
    simp [freshFilter, hp, hne, hpd] at hf
    omega
  · intro hp
    exact List.mem_filter.mpr ⟨hmem, by simp [freshFilter, hp]⟩

/-- C3 witness: with `now` one millisecond past the 48-hour window, a stale
item is dropped and a date-less item is kept. -/
theorem freshness_filter_spec_witness :
    ({ title := some "T", link := none, pubDate := some "old",
       contentSnippet := none, content := none } : FeedItem) ∉
      (([({ title := some "T", link := none, pubDate := some "old",
            contentSnippet := none, content := none } : FeedItem),
         { title := some "U", link := none, pubDate := none,
           contentSnippet := none, content := none }].take 10).filter
        (freshFilter (fun s => if s = "old" then some 0 else none) 172800001))
    ∧ ({ title := some "U", link := none, pubDate := none,
         contentSnippet := none, content := none } : FeedItem) ∈
      (([({ title := some "T", link := none, pubDate := some "old",
            contentSnippet := none, content := none } : FeedItem),
         { title := some "U", link := none, pubDate := none,
           contentSnippet := none, content := none }].take 10).filter
        (freshFilter (fun s => if s = "old" then some 0 else none) 172800001)) :=
  ⟨(freshness_filter_spec _ 172800001 _ _ (by decide)).1 "old" 0 rfl (by decide) (by decide)
      (by decide),
   (freshness_filter_spec _ 172800001 _ _ (by decide)).2 rfl⟩

/-- C10: an item whose `pubDate` is present (a non-empty string, hence truthy)
but does not parse as a valid date — `new Date(...)` yields `NaN`, modelled by
`parseDate s = none` — fails the freshness filter and is excluded, even though
items with a missing `pubDate` always pass it: an invalid timestamp behaves
like a stale one, not like an absent one. -/
theorem invalid_pubdate_excluded (parseDate : String → Option Int) (now : Int)
    (items : List FeedItem) (item : FeedItem) (s : String)
    (hp : item.pubDate = some s) (hne : s ≠ "") (hinv : parseDate s = none)
    (_hmem : item ∈ items.take 10) :
    freshFilter parseDate now item = false
    ∧ item ∉ (items.take 10).filter (freshFilter parseDate now)
    ∧ (∀ it : FeedItem, it.pubDate = none → freshFilter parseDate now it = true) := by
  have hff : freshFilter parseDate now item = false := by
    simp [freshFilter, hp, hne, hinv]
  refine ⟨hff, ?_, ?_⟩
  · intro hmemf
    have hf := (List.mem_filter.mp hmemf).2
    rw [hff] at hf
    cases hf
  · intro it hit
    simp [freshFilter, hit]

/-- C10 witness: an item carrying the unparseable date `"not-a-date"` is
dropped while a date-less item passes the filter. -/
theorem invalid_pubdate_excluded_witness :
    freshFilter (fun _ => none) 0
        { title := some "T", link := none, pubDate := some "not-a-date",
          contentSnippet := none, content := none } = false
    ∧ ({ title := some "T", link := none, pubDate := some "not-a-date",
         contentSnippet := none, content := none } : FeedItem) ∉
        (([({ title := some "T", link := none, pubDate := some "not-a-date",
              contentSnippet := none, content := none } : FeedItem)].take 10).filter
          (freshFilter (fun _ => none) 0))
    ∧ (∀ it : FeedItem, it.pubDate = none → freshFilter (fun _ => none) 0 it = true) :=
  invalid_pubdate_excluded (fun _ => none) 0 _ _ "not-a-date" rfl (by decide) rfl (by decide)

/-- C7: a per-source feed fetch or parse failure is absorbed as an empty
candidate list for that source; a recent-history network error or non-2xx
response is absorbed as an empty recent-posts list.  Both fetchers are total
Lean functions: they never raise, so the run cannot fail through them. -/
theorem fetch_failures_absorbed (parseDate : String → Option Int) (now : Int) :
    (∀ category err, fetchNews parseDate now category (Except.error err) =
        { category := category, articles := [] })
    ∧ (∀ msg, fetchRecentPosts (RecentFetchOutcome.networkError msg) = [])
    ∧ (∀ status posts, ¬ (200 ≤ status ∧ status < 300) →
        fetchRecentPosts (RecentFetchOutcome.response status posts) = []) := by
  refine ⟨fun _ _ => rfl, fun _ => rfl, fun status posts h => ?_⟩
  simp [fetchRecentPosts, h]

/-- C7 witness: a thrown feed fetch, a thrown history query and a 500 reply
are each absorbed as empty lists. -/
theorem fetch_failures_absorbed_witness :
    fetchNews (fun _ => none) 0 "AI" (Except.error "boom") =
        { category := "AI", articles := [] }
    ∧ fetchRecentPosts (RecentFetchOutcome.networkError "timeout") = []
    ∧ fetchRecentPosts (RecentFetchOutcome.response 500
        [{ title := "t", category := "AI", date := "2026-01-01" }]) = [] :=
  ⟨(fetch_failures_absorbed (fun _ => none) 0).1 "AI" "boom",
   (fetch_failures_absorbed (fun _ => none) 0).2.1 "timeout",
   (fetch_failures_absorbed (fun _ => none) 0).2.2 500 _ (by decide)⟩

/-- C9: per fetched feed, only the first 10 items are considered (truncating
the input to 10 does not change the result), the candidate list is capped at
5, and every candidate's snippet is at most 300 characters. -/
theorem candidate_caps (parseDate : String → Option Int) (now : Int)
    (category : String) (items : List FeedItem) :
    (fetchNews parseDate now category (Except.ok items)).articles.length ≤ 5
    ∧ (∀ a ∈ (fetchNews parseDate now category (Except.ok items)).articles,
        a.snippet.length ≤ 300)
    ∧ fetchNews parseDate now category (Except.ok items)
        = fetchNews parseDate now category (Except.ok (items.take 10)) := by
  refine ⟨?_, ?_, ?_⟩
  · simp only [fetchNews, List.length_map]
    exact List.length_take_le 5 _
  · intro a ha
    simp only [fetchNews, List.mem_map] at ha
    obtain ⟨item, _, rfl⟩ := ha
    have h : (sliceJs 300 (jsOrStr item.contentSnippet (jsOrStr item.content ""))).length
        = ((jsOrStr item.contentSnippet (jsOrStr item.content "")).toList.take 300).length :=
      rfl
    simp [toCandidate, h]
  · simp [fetchNews, List.take_take]

/-- C9 witness: a feed of 12 items (item number 11 would even be fresh) yields
at most 5 candidates, all snippets capped at 300 characters, and the result
equals the one computed from the first 10 items alone. -/
theorem candidate_caps_witness :
    (fetchNews (fun _ => none) 0 "AI"
        (Except.ok (List.replicate 12
          ({ title := some "t", link := none, pubDate := none,
             contentSnippet := some "s", content := none } : FeedItem)))).articles.length ≤ 5
    ∧ (toCandidate { title := some "t", link := none, pubDate := none,
                     contentSnippet := some "s", content := none }).snippet.length ≤ 300
    ∧ fetchNews (fun _ => none) 0 "AI"
        (Except.ok (List.replicate 12
          ({ title := some "t", link := none, pubDate := none,
             contentSnippet := some "s", content := none } : FeedItem)))
      = fetchNews (fun _ => none) 0 "AI"
          (Except.ok ((List.replicate 12
            ({ title := some "t", link := none, pubDate := none,
               contentSnippet := some "s", content := none } : FeedItem)).take 10)) :=
  ⟨(candidate_caps (fun _ => none) 0 "AI" _).1,
   (candidate_caps (fun _ => none) 0 "AI"
      (List.replicate 12
        ({ title := some "t", link := none, pubDate := none,
           contentSnippet := some "s", content := none } : FeedItem))).2.1
      (toCandidate { title := some "t", link := none, pubDate := none,
                     contentSnippet := some "s", content := none }) (by decide),
   (candidate_caps (fun _ => none) 0 "AI" _).2.2⟩

theorem categoryCounts_foldl (rp : List RecentPost) (acc : CategoryCounts) :
    (rp.foldl countStep acc).ai = acc.ai + rp.countP (fun p => decide (p.category = "AI"))
    ∧ (rp.foldl countStep acc).cloud
        = acc.cloud + rp.countP (fun p => decide (p.category = "雲端"))
    ∧ (rp.foldl countStep acc).sec
        = acc.sec + rp.countP (fun p => decide (p.category = "資安")) := by
  induction rp generalizing acc with
  | nil => simp
  | cons p rs ih =>
      obtain ⟨h1, h2, h3⟩ := ih (countStep acc p)
      simp only [List.foldl_cons, List.countP_cons, h1, h2, h3]
      by_cases hA : p.category = "AI"
      · refine ⟨?_, ?_, ?_⟩ <;> (simp [countStep, hA]; try omega)
      · by_cases hC : p.category = "雲端"
        · refine ⟨?_, ?_, ?_⟩ <;> (simp [countStep, hA, hC]; try omega)
        · by_cases hS : p.category = "資安"
          · refine ⟨?_, ?_, ?_⟩ <;> (simp [countStep, hA, hC, hS]; try omega)
          · refine ⟨?_, ?_, ?_⟩ <;> simp [countStep, hA, hC, hS]

theorem countP_category_sum (rp : List RecentPost) :
    rp.countP (fun p => decide (p.category = "AI"))
      + rp.countP (fun p => decide (p.category = "雲端"))
      + rp.countP (fun p => decide (p.category = "資安"))
    = rp.countP (fun p =>
        decide (p.category = "AI") || (decide (p.category = "雲端")
          || decide (p.category = "資安"))) := by
  induction rp with
  | nil => simp
  | cons p rs ih =>
      simp only [List.countP_cons]
      by_cases hA : p.category = "AI"
      · simp [hA]; omega
      · by_cases hC : p.category = "雲端"
        · simp [hA, hC]; omega
        · by_cases hS : p.category = "資安"
          · simp [hA, hC, hS]; omega
          · simp [hA, hC, hS]; omega

/-- C8: for every list of recent posts, `CategoryBalanceCounts` has exactly
the three fixed keys (it is a record with fields `ai`, `cloud`, `sec`, each a
natural number, hence ≥ 0); each key counts exactly the posts with that
category, and the three counts sum to the number of recent posts whose
category is one of the three — posts with unrecognized categories are
silently skipped by the final `else` branch of `countStep`. -/
theorem category_counts_exact (rp : List RecentPost) :
    (categoryCounts rp).ai = rp.countP (fun p => decide (p.category = "AI"))
    ∧ (categoryCounts rp).cloud = rp.countP (fun p => decide (p.category = "雲端"))
    ∧ (categoryCounts rp).sec = rp.countP (fun p => decide (p.category = "資安"))
    ∧ (categoryCounts rp).ai + (categoryCounts rp).cloud + (categoryCounts rp).sec
        = rp.countP (fun p =>
            decide (p.category = "AI" ∨ p.category = "雲端" ∨ p.category = "資安")) := by
  obtain ⟨h1, h2, h3⟩ := categoryCounts_foldl rp { ai := 0, cloud := 0, sec := 0 }
  have h1' : (categoryCounts rp).ai = rp.countP (fun p => decide (p.category = "AI")) := by
    rw [categoryCounts, h1]; simp
  have h2' : (categoryCounts rp).cloud
      = rp.countP (fun p => decide (p.category = "雲端")) := by
    rw [categoryCounts, h2]; simp
  have h3' : (categoryCounts rp).sec = rp.countP (fun p => decide (p.category = "資安")) := by
    rw [categoryCounts, h3]; simp
  refine ⟨h1', h2', h3', ?_⟩
  have hfun : (fun p : RecentPost =>
        decide (p.category = "AI" ∨ p.category = "雲端" ∨ p.category = "資安"))
      = (fun p : RecentPost =>
        decide (p.category = "AI") || (decide (p.category = "雲端")
          || decide (p.category = "資安"))) := by
    funext p
    by_cases hA : p.category = "AI"
    · simp [hA]
    · by_cases hC : p.category = "雲端"
      · simp [hA, hC]
      · by_cases hS : p.category = "資安"
        · simp [hA, hC, hS]
        · simp [hA, hC, hS]
  rw [h1', h2', h3', hfun]
  exact countP_category_sum rp

theorem leastUsed_eq_spec (c : CategoryCounts) : leastUsedCategory c = leastUsedSpec c := by
  rcases c with ⟨a, b, s⟩
  simp only [leastUsedCategory, leastUsedSpec, categoryEntries, sortByCount, insertByCount]
  by_cases hbs : b ≤ s
  · by_cases hab : a ≤ b
    · have hm : Nat.min (Nat.min a b) s = a := by
        simp [Nat.min_def]
        split_ifs
        all_goals omega
      rw [hm]
      simp [insertByCount, hbs, hab]
    · have hm : Nat.min (Nat.min a b) s = b := by
        simp [Nat.min_def]
        split_ifs
        all_goals omega
      have hne : ¬ a = b := by omega
      rw [hm]
      simp [insertByCount, hbs, hab, hne]
  · by_cases has : a ≤ s
    · have hm : Nat.min (Nat.min a b) s = a := by
        simp [Nat.min_def]
        split_ifs
        all_goals omega
      rw [hm]
      simp [insertByCount, hbs, has]
    · have hm : Nat.min (Nat.min a b) s = s := by
        simp [Nat.min_def]
        split_ifs
        all_goals omega
      have hne1 : ¬ a = s := by omega
      have hne2 : ¬ b = s := by omega
      rw [hm]
      simp [insertByCount, hbs, has, hne1, hne2]

/-- C5: for every non-empty set of recent posts, the least-used-category hint
(the first element of the stable ascending sort of the entries, as produced by
`Object.entries(...).sort((a, b) => a[1] - b[1])[0][0]`) equals the category
with the minimum `CategoryBalanceCounts` value, ties resolved by the fixed
enum insertion order AI, 雲端 (Cloud), 資安 (Security) — the selection rule
spelled out by `leastUsedSpec`. -/
theorem least_used_category_min_enum_order (rp : List RecentPost) (h : rp ≠ []) :
    leastUsedCategory (categoryCounts rp) = leastUsedSpec (categoryCounts rp) := by
  cases h' : rp with
  | nil => exact absurd h' h
  | cons p ps => exact leastUsed_eq_spec _

/-- C5 witness: with recent posts AI, AI, 雲端 the counts are (2, 1, 0), and
both selection rules pick 資安; moreover a tie between 雲端 and 資安 at count
0 is broken toward 雲端, the earlier enum entry. -/
theorem least_used_category_min_enum_order_witness :
    leastUsedCategory (categoryCounts
        [{ title := "a", category := "AI", date := "d1" },
         { title := "b", category := "AI", date := "d2" },
         { title := "c", category := "雲端", date := "d3" }])
      = leastUsedSpec (categoryCounts
        [{ title := "a", category := "AI", date := "d1" },
         { title := "b", category := "AI", date := "d2" },
         { title := "c", category := "雲端", date := "d3" }])
    ∧ leastUsedCategory (categoryCounts
        [{ title := "a", category := "AI", date := "d1" }]) = "雲端" :=
  ⟨least_used_category_min_enum_order _ (by decide),
   (least_used_category_min_enum_order
      [{ title := "a", category := "AI", date := "d1" }] (by decide)).trans (by decide)⟩

/-- C6: whenever generation succeeds with payload `a`, the run issues exactly
one insert, whose record has `date` equal to the run-time calendar date
(`today`), `status = "published"`, `image = ""`, and category, title, excerpt
and body copied verbatim from the payload. -/
theorem publish_record_fields (parseDate : String → Option Int)
    (parse : String → Option Article) (now : Int) (todayText today : String)
    (feedInputs : List (String × Except String (List FeedItem)))
    (recentInput : RecentFetchOutcome) (rawResponse : String) (storeResp : StoreResponse)
    (a : Article) (req : Option String)
    (hgen : generatePost parse todayText
        (feedInputs.map (fun s => fetchNews parseDate now s.1 s.2))
        (fetchRecentPosts recentInput) rawResponse = (Except.ok a, req)) :
    (runMain parseDate parse now todayText today feedInputs recentInput rawResponse
        storeResp).inserts = [buildPost today a]
    ∧ buildPost today a =
        { title := a.title, category := a.category, date := today, status := "published",
          excerpt := a.excerpt, image := "", body := a.body } := by
  refine ⟨?_, rfl⟩
  simp only [runMain]
  rw [hgen]
  by_cases hok : storeResp.ok
  · simp [publishPost, hok]
  · simp [publishPost, hok]

/-- C6 witness: one fresh AI candidate, no recent posts, a payload parsed from
the model text; the single inserted record carries today's date, published
status, empty image and the payload's fields verbatim. -/
theorem publish_record_fields_witness :
    (runMain (fun _ => none)
        (fun s => if s = "\x7b\x7d" then
            some { category := "AI", title := "T", excerpt := "E", body := "B" }
          else none)
        0 "2026年10月11日" "2026-10-11"
        [("AI", Except.ok [{ title := some "n", link := none, pubDate := none,
                             contentSnippet := none, content := none }])]
        (RecentFetchOutcome.response 200 []) "\x7b\x7d"
        { ok := true, status := 201, errText := "", data := [] }).inserts
      = [buildPost "2026-10-11" { category := "AI", title := "T", excerpt := "E", body := "B" }]
    ∧ buildPost "2026-10-11" { category := "AI", title := "T", excerpt := "E", body := "B" }
      = { title := "T", category := "AI", date := "2026-10-11", status := "published",
          excerpt := "E", image := "", body := "B" } :=
  publish_record_fields (fun _ => none)
    (fun s => if s = "\x7b\x7d" then
        some { category := "AI", title := "T", excerpt := "E", body := "B" }
      else none)
    0 "2026年10月11日" "2026-10-11"
    [("AI", Except.ok [{ title := some "n", link := none, pubDate := none,
                         contentSnippet := none, content := none }])]
    (RecentFetchOutcome.response 200 []) "\x7b\x7d"
    { ok := true, status := 201, errText := "", data := [] }
    { category := "AI", title := "T", excerpt := "E", body := "B" } _ (by rfl)

/-- C4: given a model reply (trimmed first, as the code does), when the text
decomposes as prose, a first `{`, middle text, a last `}` and trailing prose,
the Generation Client parses exactly the brace-delimited span (succeeding or
failing exactly as `JSON.parse` does on that span); when no brace span
exists it fails with the format error carrying the 300-character preview of
the trimmed raw text; and any generation error makes the run exit non-zero
with no insert issued. -/
theorem generation_extraction_contract (parse : String → Option Article)
    (todayText : String) (nd : List SourceResult) (rp : List RecentPost) (raw : String)
    (hnews : newsContext nd ≠ "") :
    (∀ p m q, (trimJs raw).toList = p ++ '{' :: (m ++ '}' :: q) → '{' ∉ p → '}' ∉ q →
        generatePost parse todayText nd rp raw =
          ((match parse (String.mk ('{' :: (m ++ ['}']))) with
            | some a => Except.ok a
            | none => Except.error GenError.parseError),
           some (promptText todayText nd rp)))
    ∧ ((¬ ∃ p m q, (trimJs raw).toList = p ++ '{' :: (m ++ '}' :: q)) →
        generatePost parse todayText nd rp raw =
          (Except.error (GenError.formatError (sliceJs 300 (trimJs raw))),
           some (promptText todayText nd rp)))
    ∧ (∀ (parseDate : String → Option Int) (now : Int) (today : String)
          (feedInputs : List (String × Except String (List FeedItem)))
          (recentInput : RecentFetchOutcome) (storeResp : StoreResponse)
          (e : GenError) (req : Option String),
        generatePost parse todayText
            (feedInputs.map (fun s => fetchNews parseDate now s.1 s.2))
            (fetchRecentPosts recentInput) raw = (Except.error e, req) →
        runMain parseDate parse now todayText today feedInputs recentInput raw storeResp =
          { exitCode := 1, generationRequested := req.isSome, inserts := [],
            published := none }) := by
  refine ⟨?_, ?_, ?_⟩
  · intro p m q hdec hp hq
    simp only [generatePost, if_neg hnews]
    rw [hdec, braceSpan_decomp p m q hp hq]
    cases hpx : parse (String.mk ('{' :: (m ++ ['}']))) <;> simp [hpx]
  · intro hno
    have hbs := braceSpan_none _ hno
    simp only [generatePost, if_neg hnews]
    rw [hbs]
  · intro parseDate now today feedInputs recentInput storeResp e req hg
    simp only [runMain]
    rw [hg]

/-- C4 witness: from `"Sure! \x7b"a":1\x7d Thanks."` exactly the brace span is
parsed; `"no json here"` yields the format error with the raw preview; and
in a full run the format error exits with code 1 and no insert. -/
theorem generation_extraction_contract_witness :
    generatePost
        (fun s => if s = "\x7b\"a\":1\x7d" then
            some { category := "AI", title := "T", excerpt := "E", body := "B" }
          else none)
        "today" [{ category := "AI",
                   articles := [{ title := "t", link := "", pubDate := "", snippet := "s" }] }]
        [] "Sure! \x7b\"a\":1\x7d Thanks."
      = (Except.ok { category := "AI", title := "T", excerpt := "E", body := "B" },
         some (promptText "today"
           [{ category := "AI",
              articles := [{ title := "t", link := "", pubDate := "", snippet := "s" }] }] []))
    ∧ generatePost
        (fun s => if s = "\x7b\"a\":1\x7d" then
            some { category := "AI", title := "T", excerpt := "E", body := "B" }
          else none)
        "today" [{ category := "AI",
                   articles := [{ title := "t", link := "", pubDate := "", snippet := "s" }] }]
        [] "no json here"
      = (Except.error (GenError.formatError "no json here"),
         some (promptText "today"
           [{ category := "AI",
              articles := [{ title := "t", link := "", pubDate := "", snippet := "s" }] }] []))
    ∧ runMain (fun _ => none)
        (fun s => if s = "\x7b\"a\":1\x7d" then
            some { category := "AI", title := "T", excerpt := "E", body := "B" }
          else none)
        0 "today" "2026-10-11"
        [("AI", Except.ok [{ title := some "t", link := none, pubDate := none,
                             contentSnippet := some "s", content := none }])]
        (RecentFetchOutcome.response 200 []) "no json here"
        { ok := true, status := 201, errText := "", data := [] }
      = { exitCode := 1, generationRequested := true, inserts := [], published := none } :=
  ⟨(generation_extraction_contract
      (fun s => if s = "\x7b\"a\":1\x7d" then
          some { category := "AI", title := "T", excerpt := "E", body := "B" }
        else none)
      "today" [{ category := "AI",
                 articles := [{ title := "t", link := "", pubDate := "", snippet := "s" }] }]
      [] "Sure! \x7b\"a\":1\x7d Thanks." (by decide)).1
      "Sure! ".toList "\"a\":1".toList " Thanks.".toList (by decide) (by decide) (by decide),
   (generation_extraction_contract
      (fun s => if s = "\x7b\"a\":1\x7d" then
          some { category := "AI", title := "T", excerpt := "E", body := "B" }
        else none)
      "today" [{ category := "AI",
                 articles := [{ title := "t", link := "", pubDate := "", snippet := "s" }] }]
      [] "no json here" (by decide)).2.1
      (by
        rintro ⟨p, m, q, hdec⟩
        have hmem : '{' ∈ (trimJs "no json here").toList := by
          rw [hdec]
          exact List.mem_append_right _ (List.mem_cons_self _ _)
        exact absurd hmem (by decide)),
   (generation_extraction_contract
      (fun s => if s = "\x7b\"a\":1\x7d" then
          some { category := "AI", title := "T", excerpt := "E", body := "B" }
        else none)
      "today" [{ category := "AI",
                 articles := [{ title := "t", link := "", pubDate := "", snippet := "s" }] }]
      [] "no json here" (by decide)).2.2
      (fun _ => none) 0 "2026-10-11"
      [("AI", Except.ok [{ title := some "t", link := none, pubDate := none,
                           contentSnippet := some "s", content := none }])]
      (RecentFetchOutcome.response 200 []) { ok := true, status := 201, errText := "", data := [] }
      (GenError.formatError "no json here")
      (some (promptText "today"
        [fetchNews (fun _ => none) 0 "AI"
          (Except.ok [{ title := some "t", link := none, pubDate := none,
                        contentSnippet := some "s", content := none }])] []))
      (by rfl)⟩

/-- C2 counterexample: a parsed payload whose category `"美食"` is none of the
three enum values passes through unchecked — the run succeeds (exit 0) and a
record carrying the out-of-enum category *is* inserted and published; neither
`generatePost` (which returns `JSON.parse`'s result with no field validation)
nor `publishPost` (whose target column is plain `text` with no constraint)
rejects it. -/
theorem category_enum_not_enforced_counterexample :
    ("美食" ≠ "AI" ∧ "美食" ≠ "雲端" ∧ "美食" ≠ "資安")
    ∧ runMain (fun _ => none)
        (fun s => if s = "\x7b\x7d" then
            some { category := "美食", title := "T", excerpt := "E", body := "B" }
          else none)
        0 "today" "2026-10-11"
        [("AI", Except.ok [{ title := some "n", link := none, pubDate := none,
                             contentSnippet := none, content := none }])]
        (RecentFetchOutcome.response 200 []) "\x7b\x7d"
        { ok := true, status := 201, errText := "",
          data := [{ title := "T", category := "美食", date := "2026-10-11",
                     status := "published", excerpt := "E", image := "", body := "B" }] }
      = { exitCode := 0, generationRequested := true,
          inserts := [{ title := "T", category := "美食", date := "2026-10-11",
                        status := "published", excerpt := "E", image := "", body := "B" }],
          published := some { title := "T", category := "美食", date := "2026-10-11",
                              status := "published", excerpt := "E", image := "",
                              body := "B" } } := by
  refine ⟨⟨by decide, by decide, by decide⟩, ?_⟩
  rfl

/-- C2 (amended): no category validation exists: whenever generation succeeds,
the payload — its category included, even when it is outside the three-element
enum — is passed through verbatim into the single inserted record, and the run
succeeds whenever the store accepts the insert. -/
theorem category_passthrough_no_validation (parseDate : String → Option Int)
    (parse : String → Option Article) (now : Int) (todayText today : String)
    (feedInputs : List (String × Except String (List FeedItem)))
    (recentInput : RecentFetchOutcome) (rawResponse : String) (storeResp : StoreResponse)
    (a : Article) (req : Option String)
    (hgen : generatePost parse todayText
        (feedInputs.map (fun s => fetchNews parseDate now s.1 s.2))
        (fetchRecentPosts recentInput) rawResponse = (Except.ok a, req))
    (_hcat : a.category ≠ "AI" ∧ a.category ≠ "雲端" ∧ a.category ≠ "資安")
    (hok : storeResp.ok = true) :
    runMain parseDate parse now todayText today feedInputs recentInput rawResponse storeResp
      = { exitCode := 0, generationRequested := req.isSome,
          inserts := [buildPost today a], published := storeResp.data.head? }
    ∧ (buildPost today a).category = a.category := by
  refine ⟨?_, rfl⟩
  simp only [runMain]
  rw [hgen]
  simp [publishPost, hok]

/-- C2 amended-claim witness: the `"美食"` payload is published verbatim. -/
theorem category_passthrough_no_validation_witness :
    runMain (fun _ => none)
        (fun s => if s = "\x7b\x7d" then
            some { category := "美食", title := "T", excerpt := "E", body := "B" }
          else none)
        0 "today" "2026-10-11"
        [("AI", Except.ok [{ title := some "n", link := none, pubDate := none,
                             contentSnippet := none, content := none }])]
        (RecentFetchOutcome.response 200 []) "\x7b\x7d"
        { ok := true, status := 201, errText := "",
          data := [{ title := "T", category := "美食", date := "2026-10-11",
                     status := "published", excerpt := "E", image := "", body := "B" }] }
      = { exitCode := 0, generationRequested := true,
          inserts := [buildPost "2026-10-11"
            { category := "美食", title := "T", excerpt := "E", body := "B" }],
          published := some { title := "T", category := "美食", date := "2026-10-11",
                              status := "published", excerpt := "E", image := "",
                              body := "B" } }
    ∧ (buildPost "2026-10-11"
        { category := "美食", title := "T", excerpt := "E", body := "B" }).category
      = "美食" :=
  category_passthrough_no_validation (fun _ => none)
    (fun s => if s = "\x7b\x7d" then
        some { category := "美食", title := "T", excerpt := "E", body := "B" }
      else none)
    0 "today" "2026-10-11"
    [("AI", Except.ok [{ title := some "n", link := none, pubDate := none,
                         contentSnippet := none, content := none }])]
    (RecentFetchOutcome.response 200 []) "\x7b\x7d"
    { ok := true, status := 201, errText := "",
      data := [{ title := "T", category := "美食", date := "2026-10-11",
                 status := "published", excerpt := "E", image := "", body := "B" }] }
    { category := "美食", title := "T", excerpt := "E", body := "B" }
    (some (promptText "today"
      [fetchNews (fun _ => none) 0 "AI"
        (Except.ok [{ title := some "n", link := none, pubDate := none,
                      contentSnippet := none, content := none }])] []))
    (by rfl) ⟨by decide, by decide, by decide⟩ rfl
